import Mathlib

/-!
Verification development for the mailreader-server notification dispatch core
(`src/index.js`, with the near-duplicate handler variant in `src/unnamed/part_003`).

The JavaScript source is shallowly embedded: JSON values are an inductive type,
JavaScript expression values (which may be `undefined`) are `JSValue`, fallible
JavaScript code (code that can throw) is embedded as `Except String _` where the
error carries the thrown message, and the external collaborators (DynamoDB device
store, Secrets Manager, the APNS gateway, the clock, `uuidv4`, `jwt.sign`) are
explicit oracle parameters.
-/

namespace Mailreader

/-- JSON values as produced by `JSON.parse`. Numbers are represented exactly as
`mant * 10 ^ exp10` (the decoder normalises trailing zeros away), which is faithful
for the opaque identity/marker values this program forwards without arithmetic. -/
inductive Json where
  | null
  | bool (b : Bool)
  | num (mant : Int) (exp10 : Int)
  | str (s : String)
  | arr (elems : List Json)
  | obj (members : List (String × Json))

/-- A JavaScript expression value: either `undefined` or a JSON value. -/
inductive JSValue where
  | undefined
  | val (j : Json)

/-- JavaScript truthiness of a value (as used by `if (x)` and `x || y`). -/
def truthy : JSValue → Bool
  | .undefined => false
  | .val .null => false
  | .val (.bool b) => b
  | .val (.num m _) => m != 0
  | .val (.str s) => s != ""
  | .val (.arr _) => true
  | .val (.obj _) => true

/-- Last-wins lookup in a JSON object, matching `JSON.parse` duplicate-key
semantics (V8 keeps the last occurrence). -/
def objLookup : List (String × Json) → String → Option Json
  | [], _ => none
  | (k, v) :: rest, key =>
    match objLookup rest key with
    | some r => some r
    | none => if k = key then some v else none

/-- JavaScript member access `v.key`: throws a TypeError on `null`/`undefined`,
yields `undefined` for absent keys and for non-object primitives. -/
def getMember (v : JSValue) (key : String) : Except String JSValue :=
  match v with
  | .undefined => .error ("Cannot read properties of undefined (reading '" ++ key ++ "')")
  | .val .null => .error ("Cannot read properties of null (reading '" ++ key ++ "')")
  | .val (.obj kvs) =>
    match objLookup kvs key with
    | some j => .ok (.val j)
    | none => .ok .undefined
  | .val _ => .ok .undefined

/-! ### Base64 (Node `Buffer.from(s, 'base64')`)

Node's base64 decoder is lenient: characters outside the (standard or URL-safe)
alphabet, including `=` padding, are skipped, and a trailing group of a single
sextet is dropped. -/

def b64Val (c : Char) : Option Nat :=
  if 'A' ≤ c ∧ c ≤ 'Z' then some (c.toNat - 65)
  else if 'a' ≤ c ∧ c ≤ 'z' then some (c.toNat - 97 + 26)
  else if '0' ≤ c ∧ c ≤ '9' then some (c.toNat - 48 + 52)
  else if c = '+' ∨ c = '-' then some 62
  else if c = '/' ∨ c = '_' then some 63
  else none

def decodeB64Groups : List Nat → List Nat
  | a :: b :: c :: d :: rest =>
    (a * 4 + b / 16) :: ((b % 16) * 16 + c / 4) :: ((c % 4) * 64 + d) :: decodeB64Groups rest
  | [a, b] => [a * 4 + b / 16]
  | [a, b, c] => [a * 4 + b / 16, (b % 16) * 16 + c / 4]
  | _ => []

/-- Node's lenient base64-to-bytes decoding. -/
def lenientBase64Decode (s : String) : List Nat :=
  decodeB64Groups (s.data.filterMap b64Val)

def isStdB64Char (c : Char) : Bool :=
  ('A' ≤ c ∧ c ≤ 'Z') ∨ ('a' ≤ c ∧ c ≤ 'z') ∨ ('0' ≤ c ∧ c ≤ '9') ∨ c = '+' ∨ c = '/'

/-- Strict RFC 4648 base64 validity: standard alphabet, length a multiple of
four, at most two trailing `=` pads. This formalises the phrase "valid base64"
as the claims use it; the source itself never validates base64 strictly. -/
def strictBase64Valid (s : String) : Bool :=
  let cs := s.data
  let p := (cs.reverse.takeWhile (fun c => c = '=')).length
  cs.length % 4 == 0 && decide (p ≤ 2) && (cs.take (cs.length - p)).all isStdB64Char

/-! ### UTF-8 decoding (`buffer.toString('utf-8')`)

Invalid sequences decode to U+FFFD replacement characters. -/

def replChar : Char := Char.ofNat 0xFFFD

def codePointChar (n : Nat) : Char :=
  if n < 0xD800 ∨ (0xDFFF < n ∧ n < 0x110000) then Char.ofNat n else replChar

def isCont (b : Nat) : Bool := 0x80 ≤ b ∧ b ≤ 0xBF

def utf8DecodeAux : Nat → List Nat → List Char
  | 0, _ => []
  | _, [] => []
  | Nat.succ f, b :: rest =>
    if b < 0x80 then Char.ofNat b :: utf8DecodeAux f rest
    else if 0xC2 ≤ b ∧ b ≤ 0xDF then
      match rest with
      | b2 :: rest2 =>
        if isCont b2 then
          codePointChar ((b - 0xC0) * 64 + (b2 - 0x80)) :: utf8DecodeAux f rest2
        else replChar :: utf8DecodeAux f rest
      | [] => [replChar]
    else if 0xE0 ≤ b ∧ b ≤ 0xEF then
      match rest with
      | b2 :: b3 :: rest3 =>
        if isCont b2 ∧ isCont b3 then
          let cp := (b - 0xE0) * 4096 + (b2 - 0x80) * 64 + (b3 - 0x80)
          (if cp < 0x800 then replChar else codePointChar cp) :: utf8DecodeAux f rest3
        else replChar :: utf8DecodeAux f rest
      | _ => [replChar]
    else if 0xF0 ≤ b ∧ b ≤ 0xF4 then
      match rest with
      | b2 :: b3 :: b4 :: rest4 =>
        if isCont b2 ∧ isCont b3 ∧ isCont b4 then
          let cp := (b - 0xF0) * 262144 + (b2 - 0x80) * 4096 + (b3 - 0x80) * 64 + (b4 - 0x80)
          (if cp < 0x10000 ∨ 0x10FFFF < cp then replChar else codePointChar cp)
            :: utf8DecodeAux f rest4
        else replChar :: utf8DecodeAux f rest
      | _ => [replChar]
    else replChar :: utf8DecodeAux f rest

def utf8Decode (bs : List Nat) : String := String.mk (utf8DecodeAux bs.length bs)

/-! ### JSON parsing (`JSON.parse`)

A recursive-descent parser for the JSON grammar accepted by `JSON.parse`,
with fuel bounding the recursion depth. -/

def isJsonWs (c : Char) : Bool := c = ' ' ∨ c = '\t' ∨ c = '\n' ∨ c = '\r'

def skipWs : List Char → List Char
  | [] => []
  | c :: cs => if isJsonWs c then skipWs cs else c :: cs

def takeDigits : List Char → List Char × List Char
  | [] => ([], [])
  | c :: cs =>
    if c.isDigit then
      let (ds, rest) := takeDigits cs
      (c :: ds, rest)
    else ([], c :: cs)

def digitsToNat (ds : List Char) : Nat :=
  ds.foldl (fun acc c => acc * 10 + (c.toNat - 48)) 0

def hexVal (c : Char) : Option Nat :=
  if '0' ≤ c ∧ c ≤ '9' then some (c.toNat - 48)
  else if 'a' ≤ c ∧ c ≤ 'f' then some (c.toNat - 97 + 10)
  else if 'A' ≤ c ∧ c ≤ 'F' then some (c.toNat - 65 + 10)
  else none

def escChar (c : Char) : Option Nat :=
  if c = '"' then some 34
  else if c = '\\' then some 92
  else if c = '/' then some 47
  else if c = 'b' then some 8
  else if c = 'f' then some 12
  else if c = 'n' then some 10
  else if c = 'r' then some 13
  else if c = 't' then some 9
  else none

/-- Parse the body of a JSON string literal (after its opening quote) into
UTF-16 code units; `none` on an unterminated string, a bad escape, or a raw
control character. -/
def parseStringUnits : List Char → Option (List Nat × List Char)
  | [] => none
  | '"' :: rest => some ([], rest)
  | '\\' :: 'u' :: h1 :: h2 :: h3 :: h4 :: rest =>
    match hexVal h1, hexVal h2, hexVal h3, hexVal h4 with
    | some a, some b, some c, some d =>
      match parseStringUnits rest with
      | some (us, r) => some ((a * 4096 + b * 256 + c * 16 + d) :: us, r)
      | none => none
    | _, _, _, _ => none
  | '\\' :: c :: rest =>
    match escChar c with
    | some u =>
      match parseStringUnits rest with
      | some (us, r) => some (u :: us, r)
      | none => none
    | none => none
  | c :: rest =>
    if c.toNat < 0x20 then none
    else
      match parseStringUnits rest with
      | some (us, r) => some (c.toNat :: us, r)
      | none => none

/-- Combine UTF-16 code units into characters, pairing surrogates; lone
surrogates become U+FFFD. The fuel (one unit per consumed element) keeps the
recursion structural. -/
def combineUnitsAux : Nat → List Nat → List Char
  | 0, _ => []
  | _, [] => []
  | Nat.succ f, u :: rest =>
    if 0xD800 ≤ u ∧ u ≤ 0xDBFF then
      match rest with
      | u2 :: rest2 =>
        if 0xDC00 ≤ u2 ∧ u2 ≤ 0xDFFF then
          codePointChar (0x10000 + (u - 0xD800) * 1024 + (u2 - 0xDC00)) :: combineUnitsAux f rest2
        else replChar :: combineUnitsAux f (u2 :: rest2)
      | [] => [replChar]
    else codePointChar u :: combineUnitsAux f rest

def combineUnits (us : List Nat) : List Char := combineUnitsAux us.length us

def strOfUnits (us : List Nat) : String := String.mk (combineUnits us)

def stripTrailingZeros : Nat → Nat → Nat × Int
  | 0, m => (m, 0)
  | Nat.succ f, m =>
    if m ≠ 0 ∧ m % 10 = 0 then
      let (m2, e2) := stripTrailingZeros f (m / 10)
      (m2, e2 + 1)
    else (m, 0)

/-- Build a normalised `Json.num` from sign, decimal mantissa and exponent. -/
def mkJsonNum (neg : Bool) (mant : Nat) (e : Int) : Json :=
  if mant = 0 then .num 0 0
  else
    let (m2, de) := stripTrailingZeros mant mant
    .num (if neg then -(Int.ofNat m2) else Int.ofNat m2) (e + de)

def parseFracPart : List Char → Option (List Char × List Char)
  | '.' :: r =>
    match takeDigits r with
    | ([], _) => none
    | (ds, rest) => some (ds, rest)
  | cs => some ([], cs)

def parseExpPart : List Char → Option (Int × List Char)
  | [] => some (0, [])
  | c :: r =>
    if c = 'e' ∨ c = 'E' then
      match r with
      | '+' :: rr =>
        match takeDigits rr with
        | ([], _) => none
        | (ds, rest) => some (Int.ofNat (digitsToNat ds), rest)
      | '-' :: rr =>
        match takeDigits rr with
        | ([], _) => none
        | (ds, rest) => some (-(Int.ofNat (digitsToNat ds)), rest)
      | _ =>
        match takeDigits r with
        | ([], _) => none
        | (ds, rest) => some (Int.ofNat (digitsToNat ds), rest)
    else some (0, c :: r)

/-- Parse a JSON number per the `JSON.parse` grammar (no leading zeros, no
bare leading dot, mandatory digits after `.` and the exponent marker). -/
def parseNumberCore (cs : List Char) : Option (Json × List Char) :=
  let signAndRest : Bool × List Char :=
    match cs with
    | '-' :: r => (true, r)
    | _ => (false, cs)
  match takeDigits signAndRest.2 with
  | ([], _) => none
  | (ids, cs2) =>
    if ids.length > 1 ∧ ids.head? = some '0' then none
    else
      match parseFracPart cs2 with
      | none => none
      | some (fds, cs3) =>
        match parseExpPart cs3 with
        | none => none
        | some (ev, cs4) =>
          some (mkJsonNum signAndRest.1 (digitsToNat (ids ++ fds))
                  (ev - Int.ofNat fds.length), cs4)

def lbraceChar : Char := Char.ofNat 123
def rbraceChar : Char := Char.ofNat 125

mutual

def parseVal : Nat → List Char → Except String (Json × List Char)
  | 0, _ => .error "Depth limit exceeded in JSON input"
  | Nat.succ f, cs =>
    match skipWs cs with
    | [] => .error "Unexpected end of JSON input"
    | c :: rest =>
      if c = '"' then
        match parseStringUnits rest with
        | some (us, r) => .ok (.str (strOfUnits us), r)
        | none => .error "Invalid string in JSON input"
      else if c = lbraceChar then
        match skipWs rest with
        | c2 :: r2 =>
          if c2 = rbraceChar then .ok (.obj [], r2)
          else
            match parseMembers f rest with
            | .ok (ms, r3) => .ok (.obj ms, r3)
            | .error e => .error e
        | [] => .error "Unexpected end of JSON input"
      else if c = '[' then
        match skipWs rest with
        | c2 :: r2 =>
          if c2 = ']' then .ok (.arr [], r2)
          else
            match parseElems f rest with
            | .ok (es, r3) => .ok (.arr es, r3)
            | .error e => .error e
        | [] => .error "Unexpected end of JSON input"
      else if c = 't' then
        match rest with
        | 'r' :: 'u' :: 'e' :: r => .ok (.bool true, r)
        | _ => .error "Unexpected token in JSON input"
      else if c = 'f' then
        match rest with
        | 'a' :: 'l' :: 's' :: 'e' :: r => .ok (.bool false, r)
        | _ => .error "Unexpected token in JSON input"
      else if c = 'n' then
        match rest with
        | 'u' :: 'l' :: 'l' :: r => .ok (.null, r)
        | _ => .error "Unexpected token in JSON input"
      else if c = '-' ∨ c.isDigit then
        match parseNumberCore (c :: rest) with
        | some (j, r) => .ok (j, r)
        | none => .error "Invalid number in JSON input"
      else .error "Unexpected token in JSON input"

def parseMembers : Nat → List Char → Except String (List (String × Json) × List Char)
  | 0, _ => .error "Depth limit exceeded in JSON input"
  | Nat.succ f, cs =>
    match skipWs cs with
    | [] => .error "Unexpected end of JSON input"
    | c :: rest =>
      if c = '"' then
        match parseStringUnits rest with
        | some (us, r1) =>
          match skipWs r1 with
          | ':' :: r2 =>
            match parseVal f r2 with
            | .ok (v, r3) =>
              match skipWs r3 with
              | ',' :: r4 =>
                match parseMembers f r4 with
                | .ok (ms, r5) => .ok ((strOfUnits us, v) :: ms, r5)
                | .error e => .error e
              | c2 :: r4 =>
                if c2 = rbraceChar then .ok ([(strOfUnits us, v)], r4)
                else .error "Expected comma or closing brace after JSON member"
              | [] => .error "Unexpected end of JSON input"
            | .error e => .error e
          | _ => .error "Expected colon in JSON object"
        | none => .error "Invalid string in JSON input"
      else .error "Expected property name in JSON object"

def parseElems : Nat → List Char → Except String (List Json × List Char)
  | 0, _ => .error "Depth limit exceeded in JSON input"
  | Nat.succ f, cs =>
    match parseVal f cs with
    | .ok (v, r1) =>
      match skipWs r1 with
      | ',' :: r2 =>
        match parseElems f r2 with
        | .ok (es, r3) => .ok (v :: es, r3)
        | .error e => .error e
      | ']' :: r2 => .ok ([v], r2)
      | _ => .error "Expected comma or closing bracket after JSON element"
    | .error e => .error e

end

/-- `JSON.parse`: parse a complete JSON text, rejecting trailing garbage. -/
def jsonParse (s : String) : Except String Json :=
  match parseVal (2 * s.length + 2) s.data with
  | .error e => .error e
  | .ok (v, rest) =>
    if (skipWs rest).isEmpty then .ok v
    else .error "Unexpected non-whitespace character after JSON"

/-! ### `Buffer.from(x, 'base64')` on a JavaScript value

Strings are decoded leniently; arrays are taken as byte arrays (each element
coerced to an integer and masked to a byte); `undefined`, `null`, numbers and
booleans throw a TypeError. Node additionally accepts exotic array-like objects
(`\x7blength: n\x7d`, serialized-Buffer revival objects); plain objects are modelled as
the TypeError path here and no theorem below depends on object-valued `data`. -/

def jsNumToByte : Json → Nat
  | .num m e =>
    (if 0 ≤ e then m * (10 : Int) ^ e.toNat else m / (10 : Int) ^ (-e).toNat).emod 256
      |>.toNat
  | .bool true => 1
  | _ => 0

def bufferFromBase64 : JSValue → Except String (List Nat)
  | .undefined =>
    .error "The first argument must be of type string or an instance of Buffer, ArrayBuffer, or Array or an Array-like Object. Received undefined"
  | .val .null =>
    .error "The first argument must be of type string or an instance of Buffer, ArrayBuffer, or Array or an Array-like Object. Received null"
  | .val (.bool _) =>
    .error "The first argument must be of type string or an instance of Buffer, ArrayBuffer, or Array or an Array-like Object. Received type boolean"
  | .val (.num _ _) =>
    .error "The first argument must be of type string or an instance of Buffer, ArrayBuffer, or Array or an Array-like Object. Received type number"
  | .val (.str s) => .ok (lenientBase64Decode s)
  | .val (.arr xs) => .ok (xs.map jsNumToByte)
  | .val (.obj _) =>
    .error "The first argument must be of type string or an instance of Buffer, ArrayBuffer, or Array or an Array-like Object. Received an instance of Object"

/-! ## Data model of the dispatch core -/

/-- The normalized notification built by `parseGmailMessage` and consumed by
`sendAPNSNotification` (src/index.js lines 207-220). `gmailEmail` and
`gmailHistoryId` are JavaScript values because the source stores whatever the
decoded JSON held (possibly `undefined`). -/
structure Notification where
  alertTitle : String
  alertBody : String
  gmailEmail : JSValue
  gmailHistoryId : JSValue
  gmailTimestamp : String
  badge : Int
  sound : String
  category : String

/-- Result of `parseGmailMessage`: the extracted subscriber identity and the
templated notification. -/
structure ParseResult where
  email : JSValue
  notification : Notification

/-- The fixed notification template of src/index.js lines 207-220: title, body,
badge, sound and category are constants; only the identity, the change marker
and the generation timestamp vary. -/
def mkGmailNotification (email historyId : JSValue) (now : String) : Notification :=
  { alertTitle := "New Gmail Message"
    alertBody := "You have a new email in your inbox"
    gmailEmail := email
    gmailHistoryId := historyId
    gmailTimestamp := now
    badge := 1
    sound := "default"
    category := "GMAIL_NOTIFICATION" }

/-- Body of the `try` block of `parseGmailMessage` (src/index.js lines 200-222):
base64-decode `message.data` to UTF-8 text, `JSON.parse` it, read the identity
from `emailAddress` falling back to `email` (JavaScript `||`), read `historyId`,
and build the templated notification. `now` is the `new Date().toISOString()`
oracle. -/
def parseGmailMessageCore (now : String) (message : JSValue) : Except String ParseResult :=
  match getMember message "data" with
  | .error e => .error e
  | .ok dataField =>
    match bufferFromBase64 dataField with
    | .error e => .error e
    | .ok bytes =>
      match jsonParse (utf8Decode bytes) with
      | .error e => .error e
      | .ok data =>
        match getMember (.val data) "emailAddress" with
        | .error e => .error e
        | .ok emailA =>
          match getMember (.val data) "email" with
          | .error e => .error e
          | .ok emailB =>
            match getMember (.val data) "historyId" with
            | .error e => .error e
            | .ok historyId =>
              let email := if truthy emailA then emailA else emailB
              .ok { email := email, notification := mkGmailNotification email historyId now }

/-- `parseGmailMessage` (src/index.js lines 199-226): any failure inside the
`try` block is rethrown as the MalformedPayload error, its message concatenated
after the fixed diagnostic text. -/
def parseGmailMessage (now : String) (message : JSValue) : Except String ParseResult :=
  match parseGmailMessageCore now message with
  | .ok r => .ok r
  | .error e => .error ("Failed to parse Gmail message: " ++ e)

/-- A DynamoDB device registration item (src/index.js lines 147-152). -/
structure Device where
  email : String
  deviceToken : String
  registeredAt : String
  lastActive : String
deriving DecidableEq

/-- A settled per-device promise outcome as observed by `Promise.allSettled`
(src/index.js line 342): fulfilled with the resolved value's `apnsId`, or
rejected with the error message. -/
inductive SendOutcome where
  | fulfilled (apnsId : Option String)
  | rejected (reason : String)
deriving DecidableEq

def SendOutcome.isFulfilled : SendOutcome → Bool
  | .fulfilled _ => true
  | .rejected _ => false

def SendOutcome.isRejected : SendOutcome → Bool
  | .fulfilled _ => false
  | .rejected _ => true

/-- `devices.map(device => sendAPNSNotification(device.deviceToken, ...))`
under `Promise.allSettled` (src/index.js lines 342-346): one outcome per
device, in device order. `dispatch` is the per-device delivery oracle. -/
def dispatchAll (dispatch : String → SendOutcome) (devices : List Device) : List SendOutcome :=
  devices.map (fun d => dispatch d.deviceToken)

/-- `results.filter(r => r.status === 'fulfilled').length` (src/index.js line 348). -/
def successCount (results : List SendOutcome) : Nat :=
  (results.filter (fun r => r.isFulfilled)).length

/-- `results.filter(r => r.status === 'rejected').length` (src/index.js line 349). -/
def failCount (results : List SendOutcome) : Nat :=
  (results.filter (fun r => r.isRejected)).length

/-- An HTTP response of the handler; the body is kept structured (the source
passes it through `JSON.stringify`). -/
structure HttpResponse where
  statusCode : Nat
  body : Json

/-- The catch-all error response of `handleGmailNotification`
(src/index.js lines 366-375). -/
def errorResponse (e : String) : HttpResponse :=
  { statusCode := 500
    body := .obj [("error", .str "Failed to process Gmail notification"), ("message", .str e)] }

/-- The empty-device-set success response (src/index.js lines 329-335). -/
def noDevicesResponse : HttpResponse :=
  { statusCode := 200
    body := .obj [("success", .bool true), ("message", .str "No devices to notify")] }

/-- The normal-completion summary response (src/index.js lines 353-363). -/
def sentResponse (successful failed : Nat) : HttpResponse :=
  { statusCode := 200
    body := .obj [("success", .bool true),
                  ("message", .str ("Notifications sent to " ++ toString successful ++ " devices")),
                  ("failed", .num (Int.ofNat failed) 0)] }

/-- The fan-out section of `handleGmailNotification` (src/index.js lines
327-363): short-circuit on an empty device list, otherwise dispatch to every
device and fold the settled outcomes into counts. -/
def notifyAll (dispatch : String → SendOutcome) (devices : List Device) : HttpResponse :=
  if devices.length = 0 then noDevicesResponse
  else
    let results := dispatchAll dispatch devices
    sentResponse (successCount results) (failCount results)

/-- Envelope-shape dispatch plus decoding (src/index.js lines 310-322): use the
nested `message` field when truthy (Pub/Sub push wrapper), else the envelope
itself when its `data` field is truthy, else reject the shape; then run
`parseGmailMessage` on the selected message. -/
def decodeEnvelope (now : String) (message : Json) : Except String ParseResult :=
  match getMember (.val message) "message" with
  | .error e => .error e
  | .ok mm =>
    if truthy mm then parseGmailMessage now mm
    else
      match getMember (.val message) "data" with
      | .error e => .error e
      | .ok dd =>
        if truthy dd then parseGmailMessage now (.val message)
        else .error "Invalid Pub/Sub message format"

/-- The API-event consumed by the handler; only `body` is read by
`handleGmailNotification`. -/
structure Event where
  body : Option String

/-- The `try` block of `handleGmailNotification` (src/index.js lines 301-363):
require a truthy body, `JSON.parse` it, decode the envelope, resolve devices for
the extracted identity (`resolve` is the `getUserDevices` DynamoDB oracle; its
`.error` is a rejected query promise), then fan out. -/
def handleGmailNotificationTry (now : String)
    (resolve : JSValue → Except String (List Device))
    (dispatch : String → SendOutcome) (event : Event) : Except String HttpResponse :=
  match event.body with
  | none => .error "No message body in Gmail notification event"
  | some bodyStr =>
    if bodyStr = "" then .error "No message body in Gmail notification event"
    else
      match jsonParse bodyStr with
      | .error e => .error e
      | .ok message =>
        match decodeEnvelope now message with
        | .error e => .error e
        | .ok pr =>
          match resolve pr.email with
          | .error e => .error e
          | .ok devices => .ok (notifyAll dispatch devices)

/-- `handleGmailNotification` (src/index.js lines 300-377): the catch block
turns every thrown error into the 500 error response. -/
def handleGmailNotification (now : String)
    (resolve : JSValue → Except String (List Device))
    (dispatch : String → SendOutcome) (event : Event) : HttpResponse :=
  match handleGmailNotificationTry now resolve dispatch event with
  | .ok r => r
  | .error e => errorResponse e

/-! ## Token Signer and signing-key cache -/

/-- A `getSecretValue` response (AWS Secrets Manager): `SecretString` and/or
`SecretBinary` (the latter base64 text), either possibly absent. -/
structure SecretResponse where
  secretString : Option String
  secretBinary : Option String

/-- `buffer.toString('ascii')`: Node masks each byte to 7 bits. -/
def asciiDecode (bs : List Nat) : String :=
  String.mk (bs.map (fun b => Char.ofNat (b % 128)))

/-- `response.SecretString || Buffer.from(response.SecretBinary, 'base64').toString('ascii')`
(src/index.js line 33). A missing `SecretBinary` makes `Buffer.from(undefined)`
throw, which the caller's catch turns into the key-retrieval error. -/
def secretValue (resp : SecretResponse) : Except String String :=
  let binaryPath : Except String String :=
    match resp.secretBinary with
    | some b => .ok (asciiDecode (lenientBase64Decode b))
    | none =>
      .error "The first argument must of type string or an instance of Buffer, ArrayBuffer, or Array or an Array-like Object. Received undefined"
  match resp.secretString with
  | some s => if s ≠ "" then .ok s else binaryPath
  | none => binaryPath

/-- JavaScript truthiness of the module-level `apnsPrivateKeyCache` variable
(`null` initially, possibly a string). -/
def keyCacheTruthy : Option String → Bool
  | none => false
  | some s => s ≠ ""

/-- `getAPNSPrivateKey` (src/index.js lines 26-39) as a state transformer on the
module-level cache. `fetch` is the Secrets Manager oracle for this call; the
returned pair is (cache after the call, returned key or thrown error). The
cache is assigned only when the fetch and the secret extraction both succeed. -/
def getAPNSPrivateKey (fetch : Except String SecretResponse) (cache : Option String) :
    Option String × Except String String :=
  match cache with
  | some k =>
    if k ≠ "" then (some k, .ok k)
    else
      match fetch with
      | .error _ => (cache, .error "Unable to retrieve APNS private key")
      | .ok resp =>
        match secretValue resp with
        | .error _ => (cache, .error "Unable to retrieve APNS private key")
        | .ok key => (some key, .ok key)
  | none =>
    match fetch with
    | .error _ => (cache, .error "Unable to retrieve APNS private key")
    | .ok resp =>
      match secretValue resp with
      | .error _ => (cache, .error "Unable to retrieve APNS private key")
      | .ok key => (some key, .ok key)

/-- The JWT header and payload fields assembled by `generateAPNSToken`. -/
structure APNSTokenParts where
  alg : String
  kid : String
  typ : String
  iss : String
  iat : Nat
  exp : Nat
  aud : String
deriving DecidableEq

/-- Header and payload of `generateAPNSToken` in src/index.js lines 63-75. The
two `Date.now()` reads are passed explicitly (in milliseconds); `iat` and `exp`
divide by 1000 as `Math.floor(Date.now() / 1000)` does. -/
def generateAPNSTokenParts (teamId keyId : String) (now1Ms now2Ms : Nat) : APNSTokenParts :=
  { alg := "ES256", kid := keyId, typ := "JWT"
    iss := teamId, iat := now1Ms / 1000, exp := now2Ms / 1000 + 3600, aud := "apns" }

/-- Header and payload of the `generateAPNSToken` variant in
src/unnamed/part_003 lines 40-58: identical except for the audience string. -/
def generateAPNSTokenPartsVariant (teamId keyId : String) (now1Ms now2Ms : Nat) : APNSTokenParts :=
  { alg := "ES256", kid := keyId, typ := "JWT"
    iss := teamId, iat := now1Ms / 1000, exp := now2Ms / 1000 + 3600, aud := "apns押1" }

/-- `generateAPNSToken` (src/index.js lines 63-82): retrieve the private key
(its thrown error propagates), then `jwt.sign` the claims. `sign` is the
jsonwebtoken oracle. -/
def generateAPNSToken (sign : APNSTokenParts → String → String) (teamId keyId : String)
    (now1Ms now2Ms : Nat) (keyResult : Except String String) : Except String String :=
  match keyResult with
  | .error e => .error e
  | .ok key => .ok (sign (generateAPNSTokenParts teamId keyId now1Ms now2Ms) key)

/-! ## Push Dispatcher -/

def APNS_PRODUCTION : String := "api.push.apple.com"
def APNS_SANDBOX : String := "api.sandbox.apple.com"

/-- The gateway's reaction to one outbound request: an HTTP response (status,
`apns-id` response header, accumulated body text) or a transport-level error
(connection refused, timeout, DNS failure). -/
inductive TransportResult where
  | response (statusCode : Nat) (apnsIdHeader : Option String) (data : String)
  | transportError (message : String)

/-- The outbound request assembled by `sendAPNSNotification`
(src/index.js lines 89-115): host by environment, device-token path, the
freshly generated `apns-id` correlation header, the bundle topic, and the
JSON payload. -/
structure APNSRequest where
  hostname : String
  path : String
  apnsId : String
  topic : String
  payload : Json

/-- The `gmail` payload section: `JSON.stringify` drops fields whose value is
`undefined`, so absent identity/marker vanish from the wire payload. -/
def gmailDataFields (n : Notification) : List (String × Json) :=
  (match n.gmailEmail with | .undefined => [] | .val j => [("email", j)]) ++
    (match n.gmailHistoryId with | .undefined => [] | .val j => [("historyId", j)]) ++
    [("timestamp", .str n.gmailTimestamp)]

/-- The provider payload of src/index.js lines 89-97 (`x || d` defaulting kept
for the string fields; the integer badge defaults to 0 exactly when it is 0, so
the `||` is value-preserving there). -/
def buildAPNSPayload (n : Notification) : Json :=
  .obj [("aps", .obj [
           ("alert", .obj [("title", .str n.alertTitle), ("body", .str n.alertBody)]),
           ("badge", .num n.badge 0),
           ("sound", .str (if n.sound ≠ "" then n.sound else "default")),
           ("category", .str (if n.category ≠ "" then n.category else "GMAIL_NOTIFICATION"))]),
        ("gmail", .obj (gmailDataFields n))]

/-- `sendAPNSNotification` (src/index.js lines 85-141) for one device: a failed
token generation rejects the promise with the thrown error; otherwise the
request is issued and a response with status exactly 200 resolves with the
response's `apns-id` header, any other status rejects with the status code and
body embedded, and a transport error rejects with that error. `transport` is
the network oracle for this single call, `uuid` the `uuidv4()` result. -/
def sendAPNSNotification (tokenResult : Except String String) (uuid : String)
    (transport : APNSRequest → TransportResult) (bundleId deviceToken : String)
    (n : Notification) (isProduction : Bool) : SendOutcome :=
  match tokenResult with
  | .error e => .rejected e
  | .ok _token =>
    let host := if isProduction then APNS_PRODUCTION else APNS_SANDBOX
    let req : APNSRequest :=
      { hostname := host, path := "/3/device/" ++ deviceToken
        apnsId := uuid, topic := bundleId, payload := buildAPNSPayload n }
    match transport req with
    | .response status aid data =>
      if status = 200 then .fulfilled aid
      else .rejected ("APNS request failed: " ++ toString status ++ " " ++ data)
    | .transportError e => .rejected e

/-- One event's batch of `sendAPNSNotification` calls with the module-level key
cache threaded through (the cache is written at most once, by the first
successful retrieval, so this sequential threading agrees with the concurrent
`Promise.allSettled` execution on the properties proved below). `uuidGen i` is
the `uuidv4()` result of the i-th call. Returns the cache after the batch and
the settled outcome list. -/
def runBatch (fetch : Except String SecretResponse) (sign : APNSTokenParts → String → String)
    (teamId keyId : String) (now1Ms now2Ms : Nat) (uuidGen : Nat → String)
    (transport : APNSRequest → TransportResult) (bundleId : String)
    (n : Notification) (isProduction : Bool) :
    Option String → Nat → List Device → Option String × List SendOutcome
  | cache, _, [] => (cache, [])
  | cache, i, d :: ds =>
    let step := getAPNSPrivateKey fetch cache
    let tokenResult := generateAPNSToken sign teamId keyId now1Ms now2Ms step.2
    let outcome := sendAPNSNotification tokenResult (uuidGen i) transport bundleId
      d.deviceToken n isProduction
    let rest := runBatch fetch sign teamId keyId now1Ms now2Ms uuidGen transport bundleId
      n isProduction step.1 (i + 1) ds
    (rest.1, outcome :: rest.2)

/-! ## Shared lemmas -/

/-- Every settled outcome is exactly one of fulfilled or rejected, so the two
filtered tallies partition the outcome list. -/
theorem successCount_add_failCount (rs : List SendOutcome) :
    successCount rs + failCount rs = rs.length := by
  induction rs with
  | nil => rfl
  | cons r rs ih =>
    cases r <;> simp [successCount, failCount, List.filter_cons, SendOutcome.isFulfilled,
      SendOutcome.isRejected] at ih ⊢ <;> omega

/-- A successful `parseGmailMessage` always returns the fixed template built
from its own extracted identity and marker and the generation timestamp. -/
theorem parseGmailMessage_ok_shape (now : String) (m : JSValue) (pr : ParseResult)
    (h : parseGmailMessage now m = .ok pr) :
    pr.notification = mkGmailNotification pr.email pr.notification.gmailHistoryId now := by
  unfold parseGmailMessage at h
  cases hc : parseGmailMessageCore now m with
  | error e => rw [hc] at h; exact absurd h (by simp)
  | ok r =>
    rw [hc] at h
    injection h with hr
    subst hr
    unfold parseGmailMessageCore at hc
    split at hc
    · exact absurd hc (by simp)
    · split at hc
      · exact absurd hc (by simp)
      · split at hc
        · exact absurd hc (by simp)
        · split at hc
          · exact absurd hc (by simp)
          · split at hc
            · exact absurd hc (by simp)
            · split at hc
              · exact absurd hc (by simp)
              · injection hc with hr2
                subst hr2
                rfl

/-- A successful `decodeEnvelope` is a successful `parseGmailMessage` on the
selected inner message. -/
theorem decodeEnvelope_ok_parse (now : String) (j : Json) (pr : ParseResult)
    (h : decodeEnvelope now j = .ok pr) :
    ∃ m, parseGmailMessage now m = .ok pr := by
  unfold decodeEnvelope at h
  split at h
  · exact absurd h (by simp)
  · split at h
    · exact ⟨_, h⟩
    · split at h
      · exact absurd h (by simp)
      · split at h
        · exact ⟨_, h⟩
        · exact absurd h (by simp)

/-! ## Claim theorems -/

/-- C1: for every batch of N resolved devices and any mix of per-device
delivery outcomes, the fan-out produces exactly one settled outcome per device
(so `succeeded + failed = attempted = N`), each device's outcome is the
dispatch of that device alone (independent of the other devices' outcomes,
so one device's failure never aborts or affects its siblings), and the summary
response is the fold of all N outcomes. -/
theorem fanout_summary_complete (dispatch : String → SendOutcome) (devices : List Device)
    (h : devices ≠ []) :
    successCount (dispatchAll dispatch devices) + failCount (dispatchAll dispatch devices)
        = devices.length
    ∧ (dispatchAll dispatch devices).length = devices.length
    ∧ (∀ i : Nat, (dispatchAll dispatch devices).get? i
        = (devices.get? i).map (fun d => dispatch d.deviceToken))
    ∧ notifyAll dispatch devices
        = sentResponse (successCount (dispatchAll dispatch devices))
            (failCount (dispatchAll dispatch devices)) := by
  refine ⟨?_, ?_, ?_, ?_⟩
  · rw [successCount_add_failCount]
    simp [dispatchAll]
  · simp [dispatchAll]
  · intro i
    simp [dispatchAll, List.get?_eq_getElem?, List.getElem?_map]
  · have hlen : devices.length ≠ 0 := by
      simpa [List.length_eq_zero] using h
    simp [notifyAll, hlen]

/-- C1 witness: a concrete two-device batch with one success and one
non-200 failure completes with both outcomes tallied. -/
theorem fanout_summary_complete_witness :
    successCount (dispatchAll
        (fun t => if t = "tokA" then .fulfilled (some "cid-1")
                  else .rejected "APNS request failed: 410 gone")
        [⟨"a@x.com", "tokA", "r1", "l1"⟩, ⟨"a@x.com", "tokB", "r2", "l2"⟩])
      + failCount (dispatchAll
        (fun t => if t = "tokA" then .fulfilled (some "cid-1")
                  else .rejected "APNS request failed: 410 gone")
        [⟨"a@x.com", "tokA", "r1", "l1"⟩, ⟨"a@x.com", "tokB", "r2", "l2"⟩]) = 2
    ∧ notifyAll
        (fun t => if t = "tokA" then .fulfilled (some "cid-1")
                  else .rejected "APNS request failed: 410 gone")
        [⟨"a@x.com", "tokA", "r1", "l1"⟩, ⟨"a@x.com", "tokB", "r2", "l2"⟩]
        = sentResponse 1 1 := by
  have h := fanout_summary_complete
    (fun t => if t = "tokA" then .fulfilled (some "cid-1")
              else .rejected "APNS request failed: 410 gone")
    [⟨"a@x.com", "tokA", "r1", "l1"⟩, ⟨"a@x.com", "tokB", "r2", "l2"⟩] (by simp)
  refine ⟨?_, ?_⟩
  · exact h.1.trans (by rfl)
  · exact h.2.2.2.trans (by rfl)

/-- C3: with zero resolved devices the fan-out returns the empty-state success
response immediately, without consulting the dispatcher at all (the result is
the same for every dispatcher), and the zero summary holds:
`attempted = succeeded = failed = 0`. A concrete end-to-end run with an
envelope that resolves to no devices surfaces that success response upward. -/
theorem notifyAll_empty_zero (dispatch dispatch' : String → SendOutcome) :
    notifyAll dispatch [] = noDevicesResponse
    ∧ notifyAll dispatch [] = notifyAll dispatch' []
    ∧ dispatchAll dispatch [] = []
    ∧ successCount (dispatchAll dispatch []) = 0
    ∧ failCount (dispatchAll dispatch []) = 0
    ∧ handleGmailNotification "2024-01-01T00:00:00.000Z" (fun _ => .ok []) dispatch
        ⟨some "\x7b\"message\":\x7b\"data\":\"eyJlbWFpbEFkZHJlc3MiOiJhQHguY29tIiwiaGlzdG9yeUlkIjoiOSJ9\"\x7d\x7d"⟩
        = noDevicesResponse :=
  ⟨rfl, rfl, rfl, rfl, rfl, rfl⟩

/-- C6: in a single-device delivery, a gateway status of exactly 200 is the
only success signal and resolves with the `apns-id` correlation header of the
exchange (when the gateway echoes the request's generated correlation
identifier, the outcome carries exactly that identifier); any other status
rejects with the status code and response body embedded in the reason, and a
transport-level failure rejects with the transport error. -/
theorem dispatchOne_outcomes (tok uuid bundleId dt : String) (n : Notification) (prod : Bool)
    (st : Nat) (hst : st ≠ 200) (aid : Option String) (d e : String) :
    sendAPNSNotification (.ok tok) uuid (fun r => .response 200 (some r.apnsId) d)
        bundleId dt n prod = .fulfilled (some uuid)
    ∧ sendAPNSNotification (.ok tok) uuid (fun _ => .response st aid d)
        bundleId dt n prod
        = .rejected ("APNS request failed: " ++ toString st ++ " " ++ d)
    ∧ sendAPNSNotification (.ok tok) uuid (fun _ => .transportError e)
        bundleId dt n prod = .rejected e := by
  refine ⟨rfl, ?_, rfl⟩
  simp [sendAPNSNotification, hst]

/-- C6 witness: status 410 with a body rejects with both embedded; status 200
echoing the request's correlation id resolves carrying it. -/
theorem dispatchOne_outcomes_witness :
    sendAPNSNotification (.ok "jwt") "cid-1" (fun r => .response 200 (some r.apnsId) "")
        "com.app" "tokA" (mkGmailNotification .undefined .undefined "T") false
        = .fulfilled (some "cid-1")
    ∧ sendAPNSNotification (.ok "jwt") "cid-1" (fun _ => .response 410 none "gone")
        "com.app" "tokA" (mkGmailNotification .undefined .undefined "T") false
        = .rejected "APNS request failed: 410 gone" := by
  have h := dispatchOne_outcomes "jwt" "cid-1" "com.app" "tokA"
    (mkGmailNotification .undefined .undefined "T") false 410 (by decide) none "gone" "err"
  exact ⟨h.1, h.2.1⟩

/-- C7: the token claims of `generateAPNSToken`. In the src/index.js variant
the claims are exactly issuer = team identity, key identity in the header,
`exp = iat + 3600` (when the two clock reads fall in the same second) and
audience `"apns"`; the src/unnamed/part_003 variant builds the same claims
except that its audience string is `"apns押1"`, not `"apns"`, contradicting the
claim that both variants carry audience `"apns"`. -/
theorem token_claims_audience (teamId keyId : String) (now1 now2 : Nat)
    (hsec : now1 / 1000 = now2 / 1000) :
    (generateAPNSTokenParts teamId keyId now1 now2).aud = "apns"
    ∧ (generateAPNSTokenParts teamId keyId now1 now2).exp
        = (generateAPNSTokenParts teamId keyId now1 now2).iat + 3600
    ∧ (generateAPNSTokenParts teamId keyId now1 now2).iss = teamId
    ∧ (generateAPNSTokenParts teamId keyId now1 now2).kid = keyId
    ∧ (generateAPNSTokenPartsVariant teamId keyId now1 now2).exp
        = (generateAPNSTokenPartsVariant teamId keyId now1 now2).iat + 3600
    ∧ (generateAPNSTokenPartsVariant teamId keyId now1 now2).aud = "apns押1"
    ∧ "apns押1" ≠ "apns" := by
  refine ⟨rfl, ?_, rfl, rfl, ?_, rfl, by decide⟩
  · simp [generateAPNSTokenParts, hsec]
  · simp [generateAPNSTokenPartsVariant, hsec]

/-- C7 witness: concrete claims at epoch time 0. -/
theorem token_claims_audience_witness :
    (generateAPNSTokenParts "TEAM" "KEY" 0 0).aud = "apns"
    ∧ (generateAPNSTokenPartsVariant "TEAM" "KEY" 0 0).aud = "apns押1"
    ∧ (generateAPNSTokenPartsVariant "TEAM" "KEY" 0 0).aud ≠ "apns" := by
  have h := token_claims_audience "TEAM" "KEY" 0 0 rfl
  refine ⟨h.1, h.2.2.2.2.2.1, ?_⟩
  rw [h.2.2.2.2.2.1]
  exact h.2.2.2.2.2.2

/-- The `error` field of a response body, used to observe whether a response is
an error response. -/
def responseErrorField (r : HttpResponse) : Option Json :=
  match r.body with
  | .obj kvs => objLookup kvs "error"
  | _ => none

/-- C2 counterexample: the claim says a malformed envelope surfaces as a
400-class outcome distinguishable from the 500-class internal-failure signal;
but the code returns status 500 for the malformed envelope `\x7b\x7d` (an
InvalidEnvelopeShape case), the same status it returns when the device store
itself fails on a well-formed envelope, so the two are not distinguishable by
status class. -/
theorem malformed_envelope_counterexample :
    (handleGmailNotification "2024-01-01T00:00:00.000Z" (fun _ => .ok [])
        (fun _ => .rejected "e") ⟨some "\x7b\x7d"⟩).statusCode = 500
    ∧ handleGmailNotification "2024-01-01T00:00:00.000Z" (fun _ => .ok [])
        (fun _ => .rejected "e") ⟨some "\x7b\x7d"⟩
        = errorResponse "Invalid Pub/Sub message format"
    ∧ (handleGmailNotification "2024-01-01T00:00:00.000Z"
        (fun _ => .error "DynamoDB unavailable") (fun _ => .rejected "e")
        ⟨some "\x7b\"data\":\"eyJlbWFpbEFkZHJlc3MiOiJhQHguY29tIiwiaGlzdG9yeUlkIjoiOSJ9\"\x7d"⟩).statusCode
        = 500 :=
  ⟨rfl, rfl, rfl⟩

/-- C2 amended: every decode-level or resolver-level failure of the Gmail
notification pipeline surfaces as the same 500-class `\x7berror, message\x7d`
response (malformed input is not given a distinct 400-class status), while
per-device push failures never surface as an error response at all: the
fan-out completion response always has status 200 and no `error` field, and
reports failures only as the aggregate count. -/
theorem error_surfacing_amended (now : String)
    (resolve : JSValue → Except String (List Device))
    (dispatch : String → SendOutcome) (event : Event) (e : String)
    (h : handleGmailNotificationTry now resolve dispatch event = .error e)
    (dispatch2 : String → SendOutcome) (devices : List Device) :
    handleGmailNotification now resolve dispatch event = errorResponse e
    ∧ (errorResponse e).statusCode = 500
    ∧ (notifyAll dispatch2 devices).statusCode = 200
    ∧ responseErrorField (notifyAll dispatch2 devices) = none
    ∧ responseErrorField (errorResponse e) = some (.str "Failed to process Gmail notification") := by
  refine ⟨?_, rfl, ?_, ?_, rfl⟩
  · simp [handleGmailNotification, h]
  · by_cases hd : devices.length = 0 <;> simp [notifyAll, hd] <;> rfl
  · by_cases hd : devices.length = 0 <;> simp [notifyAll, hd] <;> rfl

/-- C2 amended witness: the malformed-shape envelope yields the 500 error
response while a concrete mixed-outcome fan-out yields a 200 response without
an error field. -/
theorem error_surfacing_amended_witness :
    handleGmailNotification "2024-01-01T00:00:00.000Z" (fun _ => .ok [])
        (fun _ => .rejected "e") ⟨some "\x7b\x7d"⟩
        = errorResponse "Invalid Pub/Sub message format"
    ∧ (notifyAll (fun _ => .rejected "boom") [⟨"a@x.com", "tokA", "r", "l"⟩]).statusCode = 200
    ∧ responseErrorField (notifyAll (fun _ => .rejected "boom")
        [⟨"a@x.com", "tokA", "r", "l"⟩]) = none := by
  have h := error_surfacing_amended "2024-01-01T00:00:00.000Z" (fun _ => .ok [])
    (fun _ => .rejected "e") ⟨some "\x7b\x7d"⟩ "Invalid Pub/Sub message format" rfl
    (fun _ => .rejected "boom") [⟨"a@x.com", "tokA", "r", "l"⟩]
  exact ⟨h.1, h.2.2.1, h.2.2.2.1⟩

/-- C4 counterexample: `"e30."` is not valid base64 (it contains `.`), yet
decode succeeds on it instead of failing with MalformedPayload, because Node's
base64 decoding skips invalid characters (here yielding the JSON text for the
empty object). -/
theorem lenient_base64_counterexample :
    strictBase64Valid "e30." = false
    ∧ utf8Decode (lenientBase64Decode "e30.") = "\x7b\x7d"
    ∧ parseGmailMessage "2024-01-01T00:00:00.000Z" (.val (.obj [("data", .str "e30.")]))
        = .ok { email := .undefined
                notification := mkGmailNotification .undefined .undefined "2024-01-01T00:00:00.000Z" } :=
  ⟨rfl, rfl, rfl⟩

/-- C4 amended: decode never throws uncontrolled — every failure of
`parseGmailMessage` is the MalformedPayload error carrying the underlying
error text after the fixed diagnostic prefix — and whenever the (lenient,
invalid-character-skipping) base64 decode followed by JSON parsing of the
`data` string fails, decode fails with exactly that MalformedPayload error;
but a `data` value that is not strictly valid base64 can still decode
successfully, since invalid characters are skipped rather than rejected. -/
theorem decode_failure_malformed_payload (now : String) :
    (∀ message e, parseGmailMessage now message = .error e →
        ∃ m, e = "Failed to parse Gmail message: " ++ m)
    ∧ (∀ message s m, getMember message "data" = .ok (.val (.str s)) →
        jsonParse (utf8Decode (lenientBase64Decode s)) = .error m →
        parseGmailMessage now message = .error ("Failed to parse Gmail message: " ++ m)) := by
  constructor
  · intro message e h
    unfold parseGmailMessage at h
    cases hc : parseGmailMessageCore now message with
    | error e0 =>
      rw [hc] at h
      injection h with h2
      exact ⟨e0, h2.symm⟩
    | ok r => rw [hc] at h; exact absurd h (by simp)
  · intro message s m hd hj
    unfold parseGmailMessage parseGmailMessageCore
    rw [hd]
    simp only [bufferFromBase64, hj]

/-- C4 amended witness: an empty `data` string decodes to the empty byte
sequence, whose empty text fails JSON parsing, so decode fails with the
MalformedPayload error carrying the parse diagnostic. -/
theorem decode_failure_malformed_payload_witness :
    parseGmailMessage "2024-01-01T00:00:00.000Z" (.val (.obj [("data", .str "")]))
      = .error ("Failed to parse Gmail message: " ++ "Unexpected end of JSON input") :=
  (decode_failure_malformed_payload "2024-01-01T00:00:00.000Z").2
    (.val (.obj [("data", .str "")])) "" "Unexpected end of JSON input" rfl rfl

/-- C9 counterexample: on an envelope whose decoded JSON has neither identity
key, decode succeeds with an undefined identity (as the claim's first half
says), but the fan-out stage does not treat the undefined identity as a hard
failure: it silently resolves devices against the undefined key and completes
the batch with a success summary. -/
theorem undefined_identity_counterexample :
    parseGmailMessage "2024-01-01T00:00:00.000Z"
        (.val (.obj [("data", .str "eyJoaXN0b3J5SWQiOiI5In0=")]))
      = .ok { email := .undefined
              notification := mkGmailNotification .undefined (.val (.str "9"))
                "2024-01-01T00:00:00.000Z" }
    ∧ handleGmailNotification "2024-01-01T00:00:00.000Z"
        (fun _ => .ok [⟨"a@x.com", "tokA", "r", "l"⟩]) (fun _ => .fulfilled (some "cid-1"))
        ⟨some "\x7b\"data\":\"eyJoaXN0b3J5SWQiOiI5In0=\"\x7d"⟩
      = sentResponse 1 0 :=
  ⟨rfl, rfl⟩

/-- C9 amended: when the decoded JSON yields neither accepted identity key,
decode succeeds with an undefined subscriber identity, and the fan-out stage
performs no guard: it passes the undefined identity straight to device
resolution and returns whatever the fan-out over the resolved devices yields,
rather than failing hard. -/
theorem undefined_identity_flows (now : String)
    (resolve : JSValue → Except String (List Device)) (dispatch : String → SendOutcome)
    (s : String) (hs : s ≠ "") (msg : Json) (pr : ParseResult) (devices : List Device)
    (hparse : jsonParse s = .ok msg)
    (hdec : decodeEnvelope now msg = .ok pr)
    (hemail : pr.email = .undefined)
    (hres : resolve .undefined = .ok devices) :
    handleGmailNotification now resolve dispatch ⟨some s⟩ = notifyAll dispatch devices
    ∧ (∀ (m : JSValue) (s2 : String) (d : Json) (hist : JSValue),
        getMember m "data" = .ok (.val (.str s2)) →
        jsonParse (utf8Decode (lenientBase64Decode s2)) = .ok d →
        getMember (.val d) "emailAddress" = .ok .undefined →
        getMember (.val d) "email" = .ok .undefined →
        getMember (.val d) "historyId" = .ok hist →
        parseGmailMessage now m = .ok ⟨.undefined, mkGmailNotification .undefined hist now⟩) := by
  constructor
  · unfold handleGmailNotification handleGmailNotificationTry
    simp only [hs, if_false, hparse, hdec, hemail, hres]
  · intro m s2 d hist hd hj hA hB hH
    unfold parseGmailMessage parseGmailMessageCore
    rw [hd]
    simp only [bufferFromBase64, hj, hA, hB, hH, truthy]
    rfl

/-- C9 amended witness: the concrete `\x7b"historyId":"9"\x7d` payload with a
resolver that returns one device for the undefined identity proceeds to a
normal success summary. -/
theorem undefined_identity_flows_witness :
    handleGmailNotification "2024-01-01T00:00:00.000Z"
        (fun _ => .ok [⟨"a@x.com", "tokB", "r", "l"⟩]) (fun _ => .rejected "boom")
        ⟨some "\x7b\"data\":\"eyJoaXN0b3J5SWQiOiI5In0=\"\x7d"⟩
      = notifyAll (fun _ => .rejected "boom") [⟨"a@x.com", "tokB", "r", "l"⟩] :=
  (undefined_identity_flows "2024-01-01T00:00:00.000Z"
    (fun _ => .ok [⟨"a@x.com", "tokB", "r", "l"⟩]) (fun _ => .rejected "boom")
    "\x7b\"data\":\"eyJoaXN0b3J5SWQiOiI5In0=\"\x7d" (by decide)
    (.obj [("data", .str "eyJoaXN0b3J5SWQiOiI5In0=")])
    ⟨.undefined, mkGmailNotification .undefined (.val (.str "9")) "2024-01-01T00:00:00.000Z"⟩
    [⟨"a@x.com", "tokB", "r", "l"⟩] rfl rfl rfl rfl).1

/-- A nested `data` value that is neither a string nor an array: `undefined`,
`null`, a boolean or a number (`Buffer.from` throws a TypeError on all of
these). -/
def isNonStringScalar : JSValue → Bool
  | .undefined => true
  | .val .null => true
  | .val (.bool _) => true
  | .val (.num _ _) => true
  | _ => false

/-- C10 counterexample: the claim says decode fails with the
MalformedPayload-style parse error whenever the nested `message.data` is
missing or not a string; but a `data` field holding the byte array
`[123, 125]` is accepted by `Buffer.from` and decodes to the JSON text
`\x7b\x7d`, so the pipeline succeeds and reaches device resolution instead of
failing. -/
theorem nested_data_array_counterexample :
    handleGmailNotification "2024-01-01T00:00:00.000Z" (fun _ => .ok [])
        (fun _ => .rejected "e")
        ⟨some "\x7b\"message\":\x7b\"data\":[123,125]\x7d\x7d"⟩ = noDevicesResponse
    ∧ parseGmailMessage "2024-01-01T00:00:00.000Z"
        (.val (.obj [("data", .arr [.num 123 0, .num 125 0])]))
        = .ok { email := .undefined
                notification := mkGmailNotification .undefined .undefined "2024-01-01T00:00:00.000Z" } :=
  ⟨rfl, rfl⟩

/-- C10 amended: envelope-shape validation inspects only the top-level
`message` and `data` keys, so when the top-level `message` field is truthy and
the nested `message.data` field is missing, `null`, a boolean or a number, the
byte-decode step throws and decode fails with the MalformedPayload-style parse
error (carrying the TypeError text), not with InvalidEnvelopeShape — the
nested field is never validated before the decode step. (A `data` field
holding a byte array instead decodes successfully, per the counterexample.) -/
theorem nested_data_unvalidated (now : String)
    (resolve : JSValue → Except String (List Device)) (dispatch : String → SendOutcome)
    (s : String) (hs : s ≠ "") (msg : Json) (mm dd : JSValue) (m : String)
    (hparse : jsonParse s = .ok msg)
    (hm : getMember (.val msg) "message" = .ok mm) (ht : truthy mm = true)
    (hd : getMember mm "data" = .ok dd)
    (_hscalar : isNonStringScalar dd = true)
    (hbuf : bufferFromBase64 dd = .error m) :
    parseGmailMessage now mm = .error ("Failed to parse Gmail message: " ++ m)
    ∧ handleGmailNotification now resolve dispatch ⟨some s⟩
        = errorResponse ("Failed to parse Gmail message: " ++ m) := by
  have hpm : parseGmailMessage now mm = .error ("Failed to parse Gmail message: " ++ m) := by
    unfold parseGmailMessage parseGmailMessageCore
    rw [hd]
    simp only [hbuf]
  refine ⟨hpm, ?_⟩
  unfold handleGmailNotification handleGmailNotificationTry decodeEnvelope
  simp only [hs, if_false, hparse, hm, ht, if_true, hpm]

/-- C10 amended witness: a wrapper envelope whose inner message has no `data`
field at all fails with the MalformedPayload parse error carrying the
TypeError text of `Buffer.from(undefined, 'base64')`. -/
theorem nested_data_unvalidated_witness :
    handleGmailNotification "2024-01-01T00:00:00.000Z" (fun _ => .ok [])
        (fun _ => .rejected "e") ⟨some "\x7b\"message\":\x7b\"x\":1\x7d\x7d"⟩
      = errorResponse ("Failed to parse Gmail message: " ++
          "The first argument must be of type string or an instance of Buffer, ArrayBuffer, or Array or an Array-like Object. Received undefined") :=
  (nested_data_unvalidated "2024-01-01T00:00:00.000Z" (fun _ => .ok [])
    (fun _ => .rejected "e") "\x7b\"message\":\x7b\"x\":1\x7d\x7d" (by decide)
    (.obj [("message", .obj [("x", .num 1 0)])]) (.val (.obj [("x", .num 1 0)])) .undefined
    "The first argument must be of type string or an instance of Buffer, ArrayBuffer, or Array or an Array-like Object. Received undefined"
    rfl rfl rfl rfl rfl rfl).2

/-- A failed key retrieval leaves the module-level cache exactly as it was and
surfaces the fixed key-retrieval error. -/
theorem getAPNSPrivateKey_keyfail (cache : Option String)
    (hc : keyCacheTruthy cache = false) (e : String) :
    getAPNSPrivateKey (.error e) cache
      = (cache, .error "Unable to retrieve APNS private key") := by
  cases cache with
  | none => rfl
  | some s =>
    have hs : s = "" := by simpa [keyCacheTruthy] using hc
    subst hs
    rfl

/-- With every secret fetch failing, a batch leaves the (non-populated) cache
untouched and every device's delivery settles rejected with the
key-retrieval error. -/
theorem runBatch_keyfail (e : String) (sign : APNSTokenParts → String → String)
    (teamId keyId : String) (now1 now2 : Nat) (uuidGen : Nat → String)
    (transport : APNSRequest → TransportResult) (bundleId : String)
    (n : Notification) (prod : Bool) (cache : Option String)
    (hc : keyCacheTruthy cache = false) (i : Nat) (devices : List Device) :
    runBatch (.error e) sign teamId keyId now1 now2 uuidGen transport bundleId n prod
        cache i devices
      = (cache, devices.map fun _ => .rejected "Unable to retrieve APNS private key") := by
  induction devices generalizing i with
  | nil => rfl
  | cons d ds ih =>
    simp only [runBatch, getAPNSPrivateKey_keyfail cache hc e, generateAPNSToken,
      sendAPNSNotification, ih, List.map_cons]

/-- Tallies of an all-rejected outcome list. -/
theorem counts_map_rejected (r : String) (l : List Device) :
    successCount (l.map fun _ => SendOutcome.rejected r) = 0
    ∧ failCount (l.map fun _ => SendOutcome.rejected r) = l.length := by
  induction l with
  | nil => exact ⟨rfl, rfl⟩
  | cons d ds ih =>
    refine ⟨?_, ?_⟩
    · simpa [successCount, List.filter_cons, SendOutcome.isFulfilled] using ih.1
    · simpa [failCount, List.filter_cons, SendOutcome.isRejected] using ih.2

/-- C5: the signing-key cache is populated only by a successful retrieval (if
the cache holds a key after a call, either it already held it or the call
returned exactly that key successfully); a failed retrieval leaves the cache
untouched and surfaces the distinct key-retrieval error; a batch whose key
retrieval fails on every device settles all N outcomes rejected
(`attempted = N, succeeded = 0, failed = N`) and carries no partial key state
into a later batch, whose first successful retrieval populates the cache
cleanly. -/
theorem signing_key_cache_integrity (cache : Option String)
    (hc : keyCacheTruthy cache = false) (e : String)
    (sign : APNSTokenParts → String → String) (teamId keyId : String)
    (now1 now2 : Nat) (uuidGen : Nat → String) (transport : APNSRequest → TransportResult)
    (bundleId : String) (n : Notification) (prod : Bool) (devices : List Device)
    (resp : SecretResponse) (k : String) (hk : resp.secretString = some k) (hknz : k ≠ "") :
    (∀ (fetch : Except String SecretResponse) (c : Option String) (k2 : String),
        (getAPNSPrivateKey fetch c).1 = some k2 →
        c = some k2 ∨ (getAPNSPrivateKey fetch c).2 = .ok k2)
    ∧ getAPNSPrivateKey (.error e) cache = (cache, .error "Unable to retrieve APNS private key")
    ∧ (runBatch (.error e) sign teamId keyId now1 now2 uuidGen transport bundleId n prod
        cache 0 devices).1 = cache
    ∧ (runBatch (.error e) sign teamId keyId now1 now2 uuidGen transport bundleId n prod
        cache 0 devices).2.length = devices.length
    ∧ successCount (runBatch (.error e) sign teamId keyId now1 now2 uuidGen transport bundleId
        n prod cache 0 devices).2 = 0
    ∧ failCount (runBatch (.error e) sign teamId keyId now1 now2 uuidGen transport bundleId
        n prod cache 0 devices).2 = devices.length
    ∧ getAPNSPrivateKey (.ok resp) none = (some k, .ok k) := by
  have hrb := runBatch_keyfail e sign teamId keyId now1 now2 uuidGen transport bundleId n prod
    cache hc 0 devices
  refine ⟨?_, getAPNSPrivateKey_keyfail cache hc e, ?_, ?_, ?_, ?_, ?_⟩
  · intro fetch c k2 h
    cases c with
    | some s =>
      by_cases hs : s = ""
      · subst hs
        cases fetch with
        | error e2 =>
          simp [getAPNSPrivateKey] at h
          exact Or.inl (by rw [h])
        | ok r =>
          cases hv : secretValue r with
          | error e2 =>
            simp [getAPNSPrivateKey, hv] at h
            exact Or.inl (by rw [h])
          | ok key =>
            right
            simp [getAPNSPrivateKey, hv] at h ⊢
            exact h
      · left
        simp [getAPNSPrivateKey, hs] at h
        rw [h]
    | none =>
      cases fetch with
      | error e2 => simp [getAPNSPrivateKey] at h
      | ok r =>
        cases hv : secretValue r with
        | error e2 => simp [getAPNSPrivateKey, hv] at h
        | ok key =>
          right
          simp [getAPNSPrivateKey, hv] at h ⊢
          exact h
  · rw [hrb]
  · rw [hrb]
    simp
  · rw [hrb]
    exact (counts_map_rejected _ devices).1
  · rw [hrb]
    exact (counts_map_rejected _ devices).2
  · simp [getAPNSPrivateKey, secretValue, hk, hknz]

/-- C5 witness: a two-device batch with the fetch failing settles both
outcomes rejected, leaves the empty cache empty, and a later successful fetch
populates the cache with the retrieved key. -/
theorem signing_key_cache_integrity_witness :
    (runBatch (.error "boom") (fun _ _ => "jwt") "TEAM" "KEY" 0 0 (fun _ => "cid")
        (fun _ => .transportError "unused") "com.app"
        (mkGmailNotification .undefined .undefined "T") false none 0
        [⟨"a@x.com", "tokA", "r", "l"⟩, ⟨"a@x.com", "tokB", "r", "l"⟩]).1 = none
    ∧ failCount (runBatch (.error "boom") (fun _ _ => "jwt") "TEAM" "KEY" 0 0 (fun _ => "cid")
        (fun _ => .transportError "unused") "com.app"
        (mkGmailNotification .undefined .undefined "T") false none 0
        [⟨"a@x.com", "tokA", "r", "l"⟩, ⟨"a@x.com", "tokB", "r", "l"⟩]).2 = 2
    ∧ getAPNSPrivateKey (.ok ⟨some "PRIVATEKEY", none⟩) none
        = (some "PRIVATEKEY", .ok "PRIVATEKEY") := by
  have h := signing_key_cache_integrity none rfl "boom" (fun _ _ => "jwt") "TEAM" "KEY" 0 0
    (fun _ => "cid") (fun _ => .transportError "unused") "com.app"
    (mkGmailNotification .undefined .undefined "T") false
    [⟨"a@x.com", "tokA", "r", "l"⟩, ⟨"a@x.com", "tokB", "r", "l"⟩]
    ⟨some "PRIVATEKEY", none⟩ "PRIVATEKEY" rfl (by decide)
  exact ⟨h.2.2.1, h.2.2.2.2.2.1.trans (by rfl), h.2.2.2.2.2.2⟩

/-- C8: for a pair of valid envelopes — one in the `message`-wrapper shape,
one carrying `data` directly — whose payloads decode to the same subscriber
identity and the same change marker, decode produces identical
NormalizedNotification values. -/
theorem decode_shape_invariance (now : String) (e1 e2 : Json) (mm mm2 dd : JSValue)
    (p1 p2 : ParseResult)
    (_h1m : getMember (.val e1) "message" = .ok mm) (_h1t : truthy mm = true)
    (_h2m : getMember (.val e2) "message" = .ok mm2) (_h2t : truthy mm2 = false)
    (_h2d : getMember (.val e2) "data" = .ok dd) (_h2dt : truthy dd = true)
    (hp1 : decodeEnvelope now e1 = .ok p1) (hp2 : decodeEnvelope now e2 = .ok p2)
    (hid : p1.email = p2.email)
    (hmark : p1.notification.gmailHistoryId = p2.notification.gmailHistoryId) :
    p1 = p2 ∧ decodeEnvelope now e1 = decodeEnvelope now e2 := by
  obtain ⟨m1, hpm1⟩ := decodeEnvelope_ok_parse now e1 p1 hp1
  obtain ⟨m2, hpm2⟩ := decodeEnvelope_ok_parse now e2 p2 hp2
  have s1 := parseGmailMessage_ok_shape now m1 p1 hpm1
  have s2 := parseGmailMessage_ok_shape now m2 p2 hpm2
  have hmain : p1 = p2 := by
    cases p1 with
    | mk em1 n1 =>
      cases p2 with
      | mk em2 n2 =>
        simp only [ParseResult.mk.injEq]
        simp only at hid hmark s1 s2
        subst hid
        refine ⟨rfl, ?_⟩
        rw [s1, s2, hmark]
  exact ⟨hmain, by rw [hp1, hp2, hmain]⟩

/-- C8 witness: the wrapper envelope and the direct envelope carrying the same
base64 payload decode to the same normalized notification. -/
theorem decode_shape_invariance_witness :
    decodeEnvelope "2024-01-01T00:00:00.000Z"
        (.obj [("message", .obj [("data",
          .str "eyJlbWFpbEFkZHJlc3MiOiJhQHguY29tIiwiaGlzdG9yeUlkIjoiOSJ9")])])
      = decodeEnvelope "2024-01-01T00:00:00.000Z"
        (.obj [("data", .str "eyJlbWFpbEFkZHJlc3MiOiJhQHguY29tIiwiaGlzdG9yeUlkIjoiOSJ9")]) :=
  (decode_shape_invariance "2024-01-01T00:00:00.000Z"
    (.obj [("message", .obj [("data",
      .str "eyJlbWFpbEFkZHJlc3MiOiJhQHguY29tIiwiaGlzdG9yeUlkIjoiOSJ9")])])
    (.obj [("data", .str "eyJlbWFpbEFkZHJlc3MiOiJhQHguY29tIiwiaGlzdG9yeUlkIjoiOSJ9")])
    (.val (.obj [("data", .str "eyJlbWFpbEFkZHJlc3MiOiJhQHguY29tIiwiaGlzdG9yeUlkIjoiOSJ9")]))
    .undefined
    (.val (.str "eyJlbWFpbEFkZHJlc3MiOiJhQHguY29tIiwiaGlzdG9yeUlkIjoiOSJ9"))
    ⟨.val (.str "a@x.com"), mkGmailNotification (.val (.str "a@x.com")) (.val (.str "9"))
      "2024-01-01T00:00:00.000Z"⟩
    ⟨.val (.str "a@x.com"), mkGmailNotification (.val (.str "a@x.com")) (.val (.str "9"))
      "2024-01-01T00:00:00.000Z"⟩
    rfl rfl rfl rfl rfl rfl rfl rfl rfl rfl).2

end Mailreader
